import Mathlib

/-!
# Verification of `project_analyzer.py`

A shallow embedding of the directory-analysis tool: its constants, the
content loader and truncator, the report validator, the retrying analysis
client `analyze_with_claude`, the per-directory analyzer
`analyze_single_directory`, and the orchestrator's directory collection.

Python strings are embedded as Lean `String` (a list of characters, matching
Python's sequence-of-code-points view); the string primitives used by the
source (`in`, `strip`, `lower`, `os.path.basename`, `os.path.splitext`) are
defined below over `String.data` so that every definition evaluates inside
the kernel.

The HTTP layer (`aiohttp`) and the JSON decoding of a response body are
external to the repository; they are abstracted as oracles: an
`HttpAttempt` per request describing what the transport produced, and an
`extract` function describing the outcome of
`json.loads(body)['choices'][0]['message']['content']` (`Except.ok` the
content, or `Except.error` the stringified exception).
-/

/-- Constant `MAX_CONCURRENT_REQUESTS = 2` from the source. -/
def MAX_CONCURRENT_REQUESTS : Nat := 2

/-- Constant `MAX_RETRIES = 5` from the source. -/
def MAX_RETRIES : Nat := 5

/-- Constant `RETRY_DELAY = 5` (seconds) from the source. -/
def RETRY_DELAY : Nat := 5

/-- Constant `MAX_CONTENT_LENGTH = 8000` from the source. -/
def MAX_CONTENT_LENGTH : Nat := 8000

/-- The `SKIP_DIRS` set from the source (a Python `set` of names). -/
def SKIP_DIRS : List String :=
  ["node_modules", "venv", ".git", "__pycache__", "dist", "build",
   ".idea", ".vscode", "vendor", "packages", "system"]

/-- The `ANALYZE_EXTENSIONS` set from the source. -/
def ANALYZE_EXTENSIONS : List String :=
  [".py", ".js", ".jsx", ".ts", ".tsx", ".vue", ".java",
   ".cpp", ".c", ".h", ".hpp", ".cs", ".go", ".rb", ".php",
   ".html", ".css", ".scss", ".less", ".sql", ".md", ".json",
   ".yaml", ".yml", ".xml", ".sh", ".bash"]

/-- The whitespace set stripped by Python's `str.strip()` (CPython's
`Py_UNICODE_ISSPACE`): U+0009–U+000D, U+001C–U+001F, the space, U+0085,
U+00A0, U+1680, U+2000–U+200A, U+2028, U+2029, U+202F, U+205F and
U+3000. -/
def pyIsSpace (c : Char) : Bool :=
  decide ((9 ≤ c.toNat ∧ c.toNat ≤ 13) ∨
    (28 ≤ c.toNat ∧ c.toNat ≤ 31) ∨
    c.toNat = 32 ∨
    c.toNat = 133 ∨
    c.toNat = 160 ∨
    c.toNat = 5760 ∨
    (8192 ≤ c.toNat ∧ c.toNat ≤ 8202) ∨
    c.toNat = 8232 ∨ c.toNat = 8233 ∨
    c.toNat = 8239 ∨
    c.toNat = 8287 ∨
    c.toNat = 12288)

/-- Python `str.strip()`: remove leading and trailing whitespace. -/
def pyStrip (s : String) : String :=
  String.mk (((s.data.dropWhile pyIsSpace).reverse.dropWhile pyIsSpace).reverse)

/-- `pyStartsWith needle hay`: `needle` is an initial segment of `hay`. -/
def pyStartsWith : List Char → List Char → Bool
  | [], _ => true
  | _ :: _, [] => false
  | a :: as, b :: bs => a == b && pyStartsWith as bs

/-- `needle` occurs contiguously somewhere in `hay`. -/
def pyContainsAux (needle : List Char) : List Char → Bool
  | [] => pyStartsWith needle []
  | hay@(_ :: rest) => pyStartsWith needle hay || pyContainsAux needle rest

/-- Python's substring operator `needle in hay`. -/
def pyIn (needle hay : String) : Bool :=
  pyContainsAux needle.data hay.data

/-- ASCII lower-casing of one character (Python `str.lower()` restricted to
ASCII, which covers every extension in `ANALYZE_EXTENSIONS`). -/
def asciiLower (c : Char) : Char :=
  if 65 ≤ c.toNat ∧ c.toNat ≤ 90 then Char.ofNat (c.toNat + 32) else c

/-- Python `str.lower()` (ASCII range). -/
def pyLower (s : String) : String :=
  String.mk (s.data.map asciiLower)

/-- `os.path.basename` for POSIX paths: everything after the last `/`. -/
def basename (p : String) : String :=
  String.mk ((p.data.reverse.takeWhile (fun c => c != '/')).reverse)

/-- The extension component of `os.path.splitext`: the suffix of the
basename starting at its last dot, except that the leading dots of the
basename never begin an extension. -/
def splitext_ext (p : String) : String :=
  let b := (basename p).data
  let core := b.dropWhile (fun c => c == '.')
  if core.contains '.' then
    String.mk ('.' :: (core.reverse.takeWhile (fun c => c != '.')).reverse)
  else ""

/-- `os.path.join` for POSIX paths, as used on a directory and a direct
child name. -/
def pathJoin (d item : String) : String :=
  if d = "" then item
  else if d.data.getLast? = some '/' then d ++ item
  else d ++ "/" ++ item

/-- `should_analyze_file` from the source: the lower-cased extension is in
`ANALYZE_EXTENSIONS`. -/
def should_analyze_file (file_path : String) : Bool :=
  ANALYZE_EXTENSIONS.contains (pyLower (splitext_ext file_path))

/-- `should_skip_directory` from the source: the directory's basename is in
`SKIP_DIRS`. -/
def should_skip_directory (dir_path : String) : Bool :=
  SKIP_DIRS.contains (basename dir_path)

/-- `get_file_content` from the source: the argument is the outcome of
`open(...).read()` — either the file's text or the raised exception's
string; a read failure is returned as literal text. -/
def get_file_content (readResult : Except String String) : String :=
  match readResult with
  | .ok text => text
  | .error e => "Error reading file: " ++ e

/-- The elision marker inserted by `truncate_content`. -/
def ellipsisMarker : String := "\n...(内容已截断)...\n"

/-- Python `content[-n:]` (note `content[-0:]` is the whole string). -/
def pyTailSlice (content : List Char) (n : Nat) : List Char :=
  if n = 0 then content else content.drop (content.length - n)

/-- `truncate_content` from the source: keep the text when it fits, else
keep the first `max_length // 2` and last `max_length // 2` characters
around the elision marker. -/
def truncate_content (content : String) (max_length : Nat) : String :=
  if content.length ≤ max_length then content
  else
    let half_length := max_length / 2
    String.mk (content.data.take half_length ++ ellipsisMarker.data ++
      pyTailSlice content.data half_length)

/-- The five `required_sections` of `verify_markdown`. -/
def required_sections : List String :=
  ["功能概述", "架构设计", "实现细节", "依赖分析", "核心流程"]

/-- `verify_markdown` from the source: reject empty text and text whose
stripped length is under 100, then require every section marker as a
substring. -/
def verify_markdown (content : String) : Bool :=
  if content = "" ∨ (pyStrip content).length < 100 then false
  else required_sections.all (fun sec => pyIn sec content)

/-- What one HTTP request attempt produced, as observed by
`analyze_with_claude`: a status/body response, an `aiohttp.ClientError`,
or any other exception raised by the transport. -/
inductive HttpAttempt where
  | response (status : Nat) (body : String)
  | clientError (msg : String)
  | unexpectedError (msg : String)
deriving DecidableEq

/-- The observable behaviour of one `analyze_with_claude` call: the string
it returns, the number of HTTP requests it issued, and the backoff sleeps
it performed (in seconds, in order). -/
structure ApiCall where
  result : String
  attempts : Nat
  sleeps : List Nat
deriving DecidableEq

/-- How one attempt of `analyze_with_claude` concludes: `finished` carries
an outcome returned regardless of the retry budget (an extracted report,
or the non-retried "API错误" string for a non-200/429 status); `retryable`
marks the three situations the source retries under its budget guard —
rate limiting, an `aiohttp.ClientError`, and any other exception,
including the `JSONDecodeError`/`KeyError` re-raised from a malformed 200
body and caught by the trailing generic `except Exception` handler —
carrying the failure message returned when the budget is exhausted. -/
inductive AttemptStep where
  | finished (call : ApiCall)
  | retryable (exhaustedMsg : String)
deriving DecidableEq

/-- The branch analysis of one request in `analyze_with_claude`: `attempt`
is what the transport produced, `extract body` the outcome of
`json.loads(body)['choices'][0]['message']['content']`. -/
def attempt_step (extract : String → Except String String)
    (attempt : HttpAttempt) (retry_count : Nat) : AttemptStep :=
  match attempt with
  | .response status body =>
    if status = 200 then
      match extract body with
      | .ok c => .finished ⟨c, 1, []⟩
      | .error e =>
        .retryable ("错误 (重试" ++ toString retry_count ++ "次后): " ++ e)
    else if status = 429 then
      .retryable ("达到最大重试次数 (" ++ toString MAX_RETRIES ++ ")，最后错误: " ++ body)
    else
      .finished ⟨"API错误 (HTTP " ++ toString status ++ "): " ++ body, 1, []⟩
  | .clientError e =>
    .retryable ("网络错误 (重试" ++ toString retry_count ++ "次后): " ++ e)
  | .unexpectedError e =>
    .retryable ("错误 (重试" ++ toString retry_count ++ "次后): " ++ e)

/-- Recursion core of `analyze_with_claude`.  The source recurses with
`retry_count + 1` under the guard `retry_count < MAX_RETRIES`; here the
remaining budget `MAX_RETRIES - retry_count` is passed alongside so that
the recursion is structural: the guard `retry_count < MAX_RETRIES` holds
exactly when the budget is nonzero.  `oracle n` is the transport's outcome
for the request issued at `retry_count = n`.  A retryable failure with
budget left sleeps `RETRY_DELAY * (retry_count + 1)` and retries; with the
budget exhausted it returns its failure message.  (The source also builds
the prompt from `truncate_content content MAX_CONTENT_LENGTH`; the prompt
only travels to the external API, which the oracle abstracts.) -/
def analyze_with_claude_aux (extract : String → Except String String)
    (oracle : Nat → HttpAttempt) (content directory_name : String) :
    Nat → Nat → ApiCall
  | retry_count, budget =>
    match attempt_step extract (oracle retry_count) retry_count with
    | .finished call => call
    | .retryable exhaustedMsg =>
      match budget with
      | b + 1 =>
        let r := analyze_with_claude_aux extract oracle content
          directory_name (retry_count + 1) b
        ⟨r.result, r.attempts + 1, RETRY_DELAY * (retry_count + 1) :: r.sleeps⟩
      | 0 => ⟨exhaustedMsg, 1, []⟩

/-- `analyze_with_claude` from the source, started at an arbitrary
`retry_count` (the source defaults it to 0). -/
def analyze_with_claude (extract : String → Except String String)
    (oracle : Nat → HttpAttempt) (content directory_name : String)
    (retry_count : Nat) : ApiCall :=
  analyze_with_claude_aux extract oracle content directory_name retry_count
    (MAX_RETRIES - retry_count)

/-- The validation-retry loop of `analyze_single_directory`.  `analyses k`
is the string returned by the `k`-th `analyze_with_claude` call (`k = 0`
is the initial call made before the loop).  In the source the loop runs
`while retry_count < MAX_RETRIES`, checking the current analysis, and
fetches a fresh analysis only when the incremented counter is still under
`MAX_RETRIES`; the budget argument equals `MAX_RETRIES - retry_count`, so
the fetch guard `retry_count + 1 < MAX_RETRIES` is `0 < budget` after
peeling one.  Returns the accepted report, or `none` when the loop
exhausts its budget (nothing written). -/
def validation_loop_aux (analyses : Nat → String) : Nat → Nat → Option String
  | _, 0 => none
  | retry_count, budget + 1 =>
    if verify_markdown (analyses retry_count) then some (analyses retry_count)
    else if 0 < budget then validation_loop_aux analyses (retry_count + 1) budget
    else none

/-- The validation-retry loop started as in the source: counter 0, full
budget. -/
def validation_loop (analyses : Nat → String) : Option String :=
  validation_loop_aux analyses 0 MAX_RETRIES

deriving instance DecidableEq for Except

/-- One entry of `os.listdir(directory)`: its name, whether it is a
regular file, and — for files — the outcome of reading it (as passed to
`get_file_content`). -/
structure FsEntry where
  name : String
  isFile : Bool
  readResult : Except String String
deriving DecidableEq

/-- The file-collection pass of `analyze_single_directory`: direct
children that are files with an analyzable extension. -/
def collect_files (directory : String) (listing : List FsEntry) : List FsEntry :=
  listing.filter (fun e => e.isFile && should_analyze_file (pathJoin directory e.name))

/-- One element of `content_parts` (the f-string of the source; for a
direct child, `os.path.relpath(file_path, directory)` is the item name). -/
def build_file_part (rel_path content : String) : String :=
  "\n### File: " ++ rel_path ++ "\n```\n" ++ content ++ "\n```"

/-- Python `"\n".join`. -/
def join_lines : List String → String
  | [] => ""
  | [p] => p
  | p :: q :: rest => p ++ "\n" ++ join_lines (q :: rest)

/-- `full_content` as assembled by `analyze_single_directory`. -/
def build_bundle (directory : String) (listing : List FsEntry) : String :=
  join_lines ((collect_files directory listing).map
    (fun e => build_file_part e.name (get_file_content e.readResult)))

/-- The terminal outcome of `analyze_single_directory` for one directory:
skip-listed, no eligible files, a report written to disk (with its exact
content), or retries exhausted with nothing written. -/
inductive DirOutcome where
  | skipped
  | noFiles
  | written (report : String)
  | failed
deriving DecidableEq

/-- `analyze_single_directory` from the source.  `oracles k` is the HTTP
oracle of the `k`-th `analyze_with_claude` call; each call starts at
`retry_count = 0`.  The source computes
`dir_name = os.path.relpath(directory, base_dir)` purely for display and
`analyze_with_claude` never branches on its `directory_name` argument, so
`directory` is passed in its place. -/
def analyze_single_directory (directory base_dir : String)
    (listing : List FsEntry) (extract : String → Except String String)
    (oracles : Nat → Nat → HttpAttempt) : DirOutcome :=
  if should_skip_directory directory then .skipped
  else
    let files := collect_files directory listing
    if files.isEmpty then .noFiles
    else
      let full_content := build_bundle directory listing
      let analyses := fun k =>
        (analyze_with_claude extract (oracles k) full_content directory 0).result
      match validation_loop analyses with
      | some analysis => .written analysis
      | none => .failed

/-- The directory-collection pass of `process_all_directories`: `walk` is
the list of roots yielded by `os.walk(base_dir)`; a root is dropped iff it
contains `'node_modules'` as a substring (`'node_modules' in root`).  The
survivors are `dirs_to_process`, the task list: one analysis task is
created per element. -/
def dirs_to_process (walk : List String) : List String :=
  walk.filter (fun root => !(pyIn "node_modules" root))

/-- The contract of `analyze_with_claude`'s return value: either a content
string successfully extracted from some 200 body, or one of the four
failure-message formats produced by the source (max-retries, non-200/429
status, network error, generic error). -/
def resultShape (extract : String → Except String String) (r : String) : Prop :=
  (∃ body : String, extract body = Except.ok r) ∨
  (∃ body : String,
    r = "达到最大重试次数 (" ++ toString MAX_RETRIES ++ ")，最后错误: " ++ body) ∨
  (∃ (status : Nat) (body : String),
    r = "API错误 (HTTP " ++ toString status ++ "): " ++ body) ∨
  (∃ (k : Nat) (e : String), r = "网络错误 (重试" ++ toString k ++ "次后): " ++ e) ∨
  (∃ (k : Nat) (e : String), r = "错误 (重试" ++ toString k ++ "次后): " ++ e)

/-- A report accepted by `verify_markdown`: all five section markers plus
enough padding to pass the length check. -/
def sampleReport : String :=
  "功能概述 架构设计 实现细节 依赖分析 核心流程 " ++ String.mk (List.replicate 100 'a')

/-- A 429 response body that smuggles the five section markers and enough
length past the validator. -/
def c8Body : String :=
  "功能概述 架构设计 实现细节 依赖分析 核心流程 " ++ String.mk (List.replicate 100 'b')

/-- The max-retries failure string `analyze_with_claude` returns after
exhausting its budget on 429 responses whose body is `c8Body`. -/
def c8Failure : String :=
  "达到最大重试次数 (" ++ toString MAX_RETRIES ++ ")，最后错误: " ++ c8Body

/-! ## Support lemmas -/

theorem pyStartsWith_iff : ∀ (n h : List Char), pyStartsWith n h = true ↔ n <+: h
  | [], h => ⟨fun _ => ⟨h, rfl⟩, fun _ => rfl⟩
  | a :: as, [] => by
    constructor
    · intro hfalse; simp [pyStartsWith] at hfalse
    · rintro ⟨t, ht⟩; cases ht
  | a :: as, b :: bs => by
    rw [pyStartsWith, Bool.and_eq_true, beq_iff_eq, pyStartsWith_iff as bs]
    constructor
    · rintro ⟨h1, t, ht⟩
      exact ⟨t, by rw [List.cons_append, h1, ht]⟩
    · rintro ⟨t, ht⟩
      rw [List.cons_append] at ht
      injection ht with h1 h2
      exact ⟨h1, t, h2⟩

theorem pyContainsAux_iff : ∀ (n h : List Char), pyContainsAux n h = true ↔ n <:+: h
  | n, [] => by
    rw [pyContainsAux, pyStartsWith_iff]
    constructor
    · rintro ⟨t, ht⟩
      rcases List.append_eq_nil.mp ht with ⟨h1, h2⟩
      exact ⟨[], [], by rw [h1]; rfl⟩
    · rintro ⟨s, t, hst⟩
      rcases List.append_eq_nil.mp hst with ⟨h1, h2⟩
      rcases List.append_eq_nil.mp h1 with ⟨h3, h4⟩
      exact ⟨[], by rw [h4]; rfl⟩
  | n, c :: rest => by
    rw [pyContainsAux, Bool.or_eq_true, pyStartsWith_iff, pyContainsAux_iff n rest]
    constructor
    · rintro (⟨t, ht⟩ | ⟨s, t, hst⟩)
      · exact ⟨[], t, by rw [List.nil_append, ht]⟩
      · exact ⟨c :: s, t, by rw [← hst]; rfl⟩
    · rintro ⟨s, t, hst⟩
      cases s with
      | nil => exact Or.inl ⟨t, by rw [← hst]; rfl⟩
      | cons x xs =>
        rw [List.cons_append, List.cons_append] at hst
        injection hst with h1 h2
        exact Or.inr ⟨xs, t, h2⟩

theorem pyIn_iff (needle hay : String) :
    pyIn needle hay = true ↔ needle.data <:+: hay.data :=
  pyContainsAux_iff needle.data hay.data

theorem mem_join_lines_isInf :
    ∀ (ps : List String) (p : String), p ∈ ps → p.data <:+: (join_lines ps).data
  | [], p, hp => absurd hp (List.not_mem_nil p)
  | [q], p, hp => by
    rw [List.mem_singleton] at hp
    subst hp
    exact ⟨[], [], by simp [join_lines]⟩
  | q :: r :: rest, p, hp => by
    rcases List.mem_cons.mp hp with h | h
    · subst h
      refine ⟨[], ("\n" ++ join_lines (r :: rest)).data, ?_⟩
      simp [join_lines, String.data_append, List.append_assoc]
    · obtain ⟨s, t, hst⟩ := mem_join_lines_isInf (r :: rest) p h
      refine ⟨q.data ++ "\n".data ++ s, t, ?_⟩
      simp only [join_lines, String.data_append, List.append_assoc]
      simp only [List.append_assoc] at hst
      rw [hst]

theorem validation_loop_aux_verified :
    ∀ (budget : Nat) (analyses : Nat → String) (retry_count : Nat) (r : String),
      validation_loop_aux analyses retry_count budget = some r →
      verify_markdown r = true
  | 0, analyses, retry_count, r => by
    intro h; simp [validation_loop_aux] at h
  | budget + 1, analyses, retry_count, r => by
    intro h
    rw [validation_loop_aux] at h
    by_cases hv : verify_markdown (analyses retry_count) = true
    · rw [if_pos hv] at h
      injection h with h1
      rw [← h1]; exact hv
    · rw [if_neg hv] at h
      by_cases hb : 0 < budget
      · rw [if_pos hb] at h
        exact validation_loop_aux_verified budget analyses (retry_count + 1) r h
      · rw [if_neg hb] at h; cases h

theorem validation_loop_verified (analyses : Nat → String) (r : String)
    (h : validation_loop analyses = some r) : verify_markdown r = true :=
  validation_loop_aux_verified MAX_RETRIES analyses 0 r h

theorem truncate_content_of_le (s : String) (m : Nat) (h : s.length ≤ m) :
    truncate_content s m = s := by
  rw [truncate_content, if_pos h]

theorem truncate_content_of_gt (s : String) (m : Nat) (h : m < s.length) :
    truncate_content s m =
      String.mk (s.data.take (m / 2) ++ ellipsisMarker.data ++
        pyTailSlice s.data (m / 2)) := by
  rw [truncate_content, if_neg (by omega)]

theorem pyTailSlice_of_pos (l : List Char) (n : Nat) (h : 0 < n) :
    pyTailSlice l n = l.drop (l.length - n) := by
  rw [pyTailSlice, if_neg (by omega)]
theorem analyze_aux_zero (extract : String → Except String String)
    (oracle : Nat → HttpAttempt) (content directory_name : String)
    (retry_count : Nat) :
    analyze_with_claude_aux extract oracle content directory_name retry_count 0 =
      match attempt_step extract (oracle retry_count) retry_count with
      | .finished call => call
      | .retryable exhaustedMsg => ⟨exhaustedMsg, 1, []⟩ := by
  cases hstep : attempt_step extract (oracle retry_count) retry_count with
  | finished call =>
    unfold analyze_with_claude_aux
    rw [hstep]
  | retryable msg =>
    unfold analyze_with_claude_aux
    rw [hstep]

theorem analyze_aux_succ (extract : String → Except String String)
    (oracle : Nat → HttpAttempt) (content directory_name : String)
    (retry_count b : Nat) :
    analyze_with_claude_aux extract oracle content directory_name retry_count (b + 1) =
      match attempt_step extract (oracle retry_count) retry_count with
      | .finished call => call
      | .retryable _ =>
        ⟨(analyze_with_claude_aux extract oracle content directory_name
            (retry_count + 1) b).result,
         (analyze_with_claude_aux extract oracle content directory_name
            (retry_count + 1) b).attempts + 1,
         RETRY_DELAY * (retry_count + 1) ::
           (analyze_with_claude_aux extract oracle content directory_name
             (retry_count + 1) b).sleeps⟩ := by
  cases hstep : attempt_step extract (oracle retry_count) retry_count with
  | finished call =>
    conv_lhs => unfold analyze_with_claude_aux
    rw [hstep]
  | retryable msg =>
    conv_lhs => unfold analyze_with_claude_aux
    rw [hstep]

theorem attempt_step_shape (extract : String → Except String String)
    (attempt : HttpAttempt) (retry_count : Nat) :
    resultShape extract
      (match attempt_step extract attempt retry_count with
       | .finished call => call.result
       | .retryable msg => msg) := by
  cases attempt with
  | response status body =>
    by_cases hs : status = 200
    · subst hs
      cases he : extract body with
      | ok c =>
        have hstep : attempt_step extract (HttpAttempt.response 200 body) retry_count =
            AttemptStep.finished ⟨c, 1, []⟩ := by
          simp [attempt_step, he]
        rw [hstep]
        exact Or.inl ⟨body, he⟩
      | error e =>
        have hstep : attempt_step extract (HttpAttempt.response 200 body) retry_count =
            AttemptStep.retryable
              ("错误 (重试" ++ toString retry_count ++ "次后): " ++ e) := by
          simp [attempt_step, he]
        rw [hstep]
        exact Or.inr (Or.inr (Or.inr (Or.inr ⟨retry_count, e, rfl⟩)))
    · by_cases h4 : status = 429
      · subst h4
        have hstep : attempt_step extract (HttpAttempt.response 429 body) retry_count =
            AttemptStep.retryable
              ("达到最大重试次数 (" ++ toString MAX_RETRIES ++ ")，最后错误: " ++ body) := by
          simp [attempt_step]
        rw [hstep]
        exact Or.inr (Or.inl ⟨body, rfl⟩)
      · have hstep : attempt_step extract (HttpAttempt.response status body) retry_count =
            AttemptStep.finished
              ⟨"API错误 (HTTP " ++ toString status ++ "): " ++ body, 1, []⟩ := by
          simp [attempt_step, hs, h4]
        rw [hstep]
        exact Or.inr (Or.inr (Or.inl ⟨status, body, rfl⟩))
  | clientError e =>
    exact Or.inr (Or.inr (Or.inr (Or.inl ⟨retry_count, e, rfl⟩)))
  | unexpectedError e =>
    exact Or.inr (Or.inr (Or.inr (Or.inr ⟨retry_count, e, rfl⟩)))

theorem analyze_aux_result_shape (extract : String → Except String String)
    (oracle : Nat → HttpAttempt) (content directory_name : String) :
    ∀ (budget retry_count : Nat),
      resultShape extract
        (analyze_with_claude_aux extract oracle content directory_name
          retry_count budget).result := by
  intro budget
  induction budget with
  | zero =>
    intro rc
    rw [analyze_aux_zero]
    have h := attempt_step_shape extract (oracle rc) rc
    cases hstep : attempt_step extract (oracle rc) rc with
    | finished call => rw [hstep] at h; exact h
    | retryable msg => rw [hstep] at h; exact h
  | succ b ih =>
    intro rc
    rw [analyze_aux_succ]
    have h := attempt_step_shape extract (oracle rc) rc
    cases hstep : attempt_step extract (oracle rc) rc with
    | finished call => rw [hstep] at h; exact h
    | retryable msg => exact ih (rc + 1)

theorem analyze_malformed_200_retries (extract : String → Except String String)
    (oracle : Nat → HttpAttempt) (content directory_name : String)
    (retry_count : Nat) (body e : String)
    (hor : oracle retry_count = HttpAttempt.response 200 body)
    (hex : extract body = Except.error e)
    (h : retry_count < MAX_RETRIES) :
    analyze_with_claude extract oracle content directory_name retry_count =
      ⟨(analyze_with_claude extract oracle content directory_name (retry_count + 1)).result,
       (analyze_with_claude extract oracle content directory_name (retry_count + 1)).attempts + 1,
       RETRY_DELAY * (retry_count + 1) ::
         (analyze_with_claude extract oracle content directory_name (retry_count + 1)).sleeps⟩ := by
  have hstep : attempt_step extract (oracle retry_count) retry_count =
      AttemptStep.retryable
        ("错误 (重试" ++ toString retry_count ++ "次后): " ++ e) := by
    rw [hor]; simp [attempt_step, hex]
  have hb : MAX_RETRIES - retry_count = (MAX_RETRIES - (retry_count + 1)) + 1 := by
    omega
  unfold analyze_with_claude
  rw [hb, analyze_aux_succ, hstep]

theorem analyze_malformed_200_exhausted (extract : String → Except String String)
    (oracle : Nat → HttpAttempt) (content directory_name : String)
    (retry_count : Nat) (body e : String)
    (hor : oracle retry_count = HttpAttempt.response 200 body)
    (hex : extract body = Except.error e)
    (h : MAX_RETRIES ≤ retry_count) :
    analyze_with_claude extract oracle content directory_name retry_count =
      ⟨"错误 (重试" ++ toString retry_count ++ "次后): " ++ e, 1, []⟩ := by
  have hstep : attempt_step extract (oracle retry_count) retry_count =
      AttemptStep.retryable
        ("错误 (重试" ++ toString retry_count ++ "次后): " ++ e) := by
    rw [hor]; simp [attempt_step, hex]
  have hb : MAX_RETRIES - retry_count = 0 := by omega
  unfold analyze_with_claude
  rw [hb, analyze_aux_zero, hstep]

/-! ## Claim theorems -/

/-- C1 (counterexample): with every response an HTTP 200 whose body fails
extraction and a full retry budget (`retry_count = 0`),
`analyze_with_claude` issues 6 requests — the re-raised parse error is
caught by the generic exception handler and retried inside the client,
not surfaced immediately after the single attempt the claim describes. -/
theorem C1_counterexample :
    (analyze_with_claude (fun _ => Except.error "Expecting value")
      (fun _ => HttpAttempt.response 200 "not json") "content" "dir" 0).attempts = 6 ∧
    ¬ ((analyze_with_claude (fun _ => Except.error "Expecting value")
      (fun _ => HttpAttempt.response 200 "not json") "content" "dir" 0).attempts = 1) :=
  ⟨by decide, by decide⟩

/-- C1 (amended): when an HTTP 200 response has a malformed body (the
extraction of `choices[0].message.content` fails), the raised error is
caught by the generic exception handler: while retry budget remains
(`retry_count < MAX_RETRIES`) the client sleeps
`RETRY_DELAY * (retry_count + 1)` and retries itself; only with the budget
exhausted (`MAX_RETRIES ≤ retry_count`) does it immediately return the
failure string carrying the error, without a further request. -/
theorem C1_malformed_200_amended (extract : String → Except String String)
    (oracle : Nat → HttpAttempt) (content directory_name : String)
    (retry_count : Nat) (body e : String)
    (hor : oracle retry_count = HttpAttempt.response 200 body)
    (hex : extract body = Except.error e) :
    (retry_count < MAX_RETRIES →
      analyze_with_claude extract oracle content directory_name retry_count =
        ⟨(analyze_with_claude extract oracle content directory_name
            (retry_count + 1)).result,
         (analyze_with_claude extract oracle content directory_name
            (retry_count + 1)).attempts + 1,
         RETRY_DELAY * (retry_count + 1) ::
           (analyze_with_claude extract oracle content directory_name
             (retry_count + 1)).sleeps⟩) ∧
    (MAX_RETRIES ≤ retry_count →
      analyze_with_claude extract oracle content directory_name retry_count =
        ⟨"错误 (重试" ++ toString retry_count ++ "次后): " ++ e, 1, []⟩) :=
  ⟨fun h => analyze_malformed_200_retries extract oracle content directory_name
     retry_count body e hor hex h,
   fun h => analyze_malformed_200_exhausted extract oracle content directory_name
     retry_count body e hor hex h⟩

/-- Witness for C1 (amended) at concrete inputs: retry budget remaining at
`retry_count = 0` (one retry recursion recorded), and budget exhausted at
`retry_count = 7` (immediate failure string). -/
theorem C1_malformed_200_amended_witness :
    ((0 : Nat) < MAX_RETRIES ∧
      analyze_with_claude (fun _ => Except.error "bad")
        (fun _ => HttpAttempt.response 200 "x") "c" "d" 0 =
        ⟨(analyze_with_claude (fun _ => Except.error "bad")
            (fun _ => HttpAttempt.response 200 "x") "c" "d" 1).result,
         (analyze_with_claude (fun _ => Except.error "bad")
            (fun _ => HttpAttempt.response 200 "x") "c" "d" 1).attempts + 1,
         RETRY_DELAY * (0 + 1) ::
           (analyze_with_claude (fun _ => Except.error "bad")
             (fun _ => HttpAttempt.response 200 "x") "c" "d" 1).sleeps⟩) ∧
    (MAX_RETRIES ≤ 7 ∧
      analyze_with_claude (fun _ => Except.error "bad")
        (fun _ => HttpAttempt.response 200 "x") "c" "d" 7 =
        ⟨"错误 (重试" ++ toString 7 ++ "次后): " ++ "bad", 1, []⟩) :=
  ⟨⟨by decide,
    (C1_malformed_200_amended (fun _ => Except.error "bad")
      (fun _ => HttpAttempt.response 200 "x") "c" "d" 0 "x" "bad" rfl rfl).1
      (by decide)⟩,
   ⟨by decide,
    (C1_malformed_200_amended (fun _ => Except.error "bad")
      (fun _ => HttpAttempt.response 200 "x") "c" "d" 7 "x" "bad" rfl rfl).2
      (by decide)⟩⟩

/-- C4: if every request receives HTTP 429, a call started with
`retry_count = 0` performs exactly `MAX_RETRIES + 1 = 6` request attempts,
sleeps the strictly increasing sequence 5, 10, 15, 20, 25 seconds between
consecutive attempts, and returns the max-retries failure string carrying
the last response body. -/
theorem C4_always_429_six_attempts (extract : String → Except String String)
    (bodies : Nat → String) (content directory_name : String) :
    analyze_with_claude extract (fun n => HttpAttempt.response 429 (bodies n))
      content directory_name 0 =
    ⟨"达到最大重试次数 (5)，最后错误: " ++ bodies 5, 6, [5, 10, 15, 20, 25]⟩ := by
  show analyze_with_claude_aux _ _ _ _ 0 5 = _
  simp [analyze_with_claude_aux, attempt_step, RETRY_DELAY, MAX_RETRIES]
  rfl

/-- C7: for every extractor, transport behaviour, input text, display name
and retry count, `analyze_with_claude` returns a string that is either a
successfully extracted report or one of the four descriptive
failure-message formats; the embedding is a total function, mirroring the
source's catch-all exception handling, so no exception escapes the
client. -/
theorem C7_analyze_total_shape (extract : String → Except String String)
    (oracle : Nat → HttpAttempt) (content directory_name : String)
    (retry_count : Nat) :
    resultShape extract
      (analyze_with_claude extract oracle content directory_name
        retry_count).result :=
  analyze_aux_result_shape extract oracle content directory_name
    (MAX_RETRIES - retry_count) retry_count

/-- C2 (counterexample): the directory `/p/venv` — whose basename `venv`
is in the fixed skip set and which contains the analyzable file `a.py` —
is nevertheless collected into the orchestrator's task list
`dirs_to_process`, because the collection pass only drops paths containing
`node_modules` as a substring. -/
theorem C2_counterexample :
    "/p/venv" ∈ dirs_to_process ["/p", "/p/venv"] ∧
    should_skip_directory "/p/venv" = true ∧
    "venv" ∈ SKIP_DIRS ∧
    should_analyze_file "/p/venv/a.py" = true :=
  ⟨by decide, by decide, by decide, by decide⟩

/-- C2 (amended): the orchestrator's collection pass excludes exactly the
walked directories whose path contains `node_modules` as a substring;
every other directory — including one whose basename is in the skip set —
is collected as a task, and for those `analyze_single_directory` returns
immediately with no analysis and no report (the basename skip check lives
in the directory analyzer, not in task collection). -/
theorem C2_skip_amended :
    (∀ (walk : List String) (root : String),
      root ∈ dirs_to_process walk → pyIn "node_modules" root = false) ∧
    (∀ (directory base_dir : String) (listing : List FsEntry)
       (extract : String → Except String String)
       (oracles : Nat → Nat → HttpAttempt),
      should_skip_directory directory = true →
      analyze_single_directory directory base_dir listing extract oracles =
        DirOutcome.skipped) := by
  constructor
  · intro walk root hmem
    simp only [dirs_to_process] at hmem
    have h2 := (List.mem_filter.mp hmem).2
    cases hpy : pyIn "node_modules" root with
    | false => rfl
    | true => rw [hpy] at h2; exact Bool.noConfusion h2
  · intro d b l e o hskip
    simp only [analyze_single_directory]
    rw [if_pos hskip]

/-- Witness for C2 (amended): a concrete collected directory free of
`node_modules`, and a concrete skip-listed directory with an eligible
file on which `analyze_single_directory` returns `skipped`. -/
theorem C2_skip_amended_witness :
    ("/p/src" ∈ dirs_to_process ["/p/src"] ∧
      pyIn "node_modules" "/p/src" = false) ∧
    (should_skip_directory "/p/venv" = true ∧
      analyze_single_directory "/p/venv" "/p" [⟨"a.py", true, Except.ok "x"⟩]
        (fun _ => Except.error "e") (fun _ _ => HttpAttempt.response 200 "b") =
        DirOutcome.skipped) :=
  ⟨⟨by decide, C2_skip_amended.1 ["/p/src"] "/p/src" (by decide)⟩,
   ⟨by decide, C2_skip_amended.2 "/p/venv" "/p" [⟨"a.py", true, Except.ok "x"⟩]
      (fun _ => Except.error "e") (fun _ _ => HttpAttempt.response 200 "b")
      (by decide)⟩⟩

/-- C3: whenever `analyze_single_directory` writes a report, the exact
written content has passed `verify_markdown`; an invalid report is never
persisted — the validation-retry loop only ever returns a report it has
just validated, and on exhaustion nothing is written. -/
theorem C3_written_implies_verified (directory base_dir : String)
    (listing : List FsEntry) (extract : String → Except String String)
    (oracles : Nat → Nat → HttpAttempt) (r : String)
    (h : analyze_single_directory directory base_dir listing extract oracles =
      DirOutcome.written r) :
    verify_markdown r = true := by
  simp only [analyze_single_directory] at h
  by_cases hskip : should_skip_directory directory = true
  · rw [if_pos hskip] at h; exact DirOutcome.noConfusion h
  · rw [if_neg hskip] at h
    by_cases hempty : (collect_files directory listing).isEmpty = true
    · rw [if_pos hempty] at h; exact DirOutcome.noConfusion h
    · rw [if_neg hempty] at h
      cases hv : validation_loop (fun k =>
          (analyze_with_claude extract (oracles k) (build_bundle directory listing)
            directory 0).result) with
      | some a =>
        rw [hv] at h
        injection h with h1
        rw [← h1]
        exact validation_loop_verified _ a hv
      | none =>
        rw [hv] at h
        exact DirOutcome.noConfusion h

set_option maxRecDepth 10000 in
/-- Witness for C3: a directory whose stub API returns a valid report on
the first call; the report is written and passes the validator. -/
theorem C3_written_implies_verified_witness :
    analyze_single_directory "/p" "/" [⟨"a.py", true, Except.ok "code"⟩]
      (fun _ => Except.ok sampleReport)
      (fun _ _ => HttpAttempt.response 200 "body") =
      DirOutcome.written sampleReport ∧
    verify_markdown sampleReport = true :=
  ⟨by decide,
   C3_written_implies_verified "/p" "/" [⟨"a.py", true, Except.ok "code"⟩]
     (fun _ => Except.ok sampleReport) (fun _ _ => HttpAttempt.response 200 "body")
     sampleReport (by decide)⟩

/-- C6: `verify_markdown` returns true exactly when the whitespace-trimmed
length is at least 100 and all five required section markers occur as
substrings; in particular it returns false for the empty string (trimmed
length 0), for any text with trimmed length under 100, and whenever one of
the five markers is absent. -/
theorem C6_verify_markdown_iff (content : String) :
    verify_markdown content = true ↔
      (100 ≤ (pyStrip content).length ∧
        ∀ sec ∈ required_sections, sec.data <:+: content.data) := by
  unfold verify_markdown
  by_cases hc : content = "" ∨ (pyStrip content).length < 100
  · rw [if_pos hc]
    constructor
    · intro h; exact Bool.noConfusion h
    · rintro ⟨hlen, _⟩
      rcases hc with hc | hc
      · subst hc; exact absurd hlen (by decide)
      · omega
  · rw [if_neg hc, List.all_eq_true]
    have hlen : 100 ≤ (pyStrip content).length := by
      rcases not_or.mp hc with ⟨_, h2⟩
      omega
    constructor
    · intro hall
      exact ⟨hlen, fun sec hsec => (pyIn_iff sec content).mp (hall sec hsec)⟩
    · rintro ⟨_, hsubs⟩ sec hsec
      exact (pyIn_iff sec content).mpr (hsubs sec hsec)

/-- C5: at the fixed maximum 8000, `truncate_content` returns inputs of
length at most 8000 unchanged; for longer inputs it returns the first 4000
characters, the elision marker, and the last 4000 characters, so the
output length is exactly `2 * (8000 / 2) + ellipsisMarker.length`. -/
theorem C5_truncate_spec (s : String) :
    (s.length ≤ 8000 → truncate_content s 8000 = s) ∧
    (8000 < s.length →
      (truncate_content s 8000).data =
        s.data.take 4000 ++ ellipsisMarker.data ++
          s.data.drop (s.data.length - 4000) ∧
      (truncate_content s 8000).length = 2 * (8000 / 2) + ellipsisMarker.length) := by
  constructor
  · intro h
    exact truncate_content_of_le s 8000 h
  · intro h
    have h2 : (8000 : Nat) / 2 = 4000 := by norm_num
    have heq := truncate_content_of_gt s 8000 h
    rw [h2, pyTailSlice_of_pos _ 4000 (by norm_num)] at heq
    have hlen : 8000 < s.data.length := h
    constructor
    · rw [heq]
    · rw [heq]
      show (s.data.take 4000 ++ ellipsisMarker.data ++
        s.data.drop (s.data.length - 4000)).length =
        2 * (8000 / 2) + ellipsisMarker.data.length
      have hm : ellipsisMarker.data.length = 15 := by decide
      rw [List.length_append, List.length_append, List.length_take,
        List.length_drop, hm]
      omega

/-- Witness for C5 at concrete inputs: a short string kept unchanged, and
a string of 8001 characters that gets truncated to length 8015. -/
theorem C5_truncate_spec_witness :
    ("ab".length ≤ 8000 ∧ truncate_content "ab" 8000 = "ab") ∧
    (8000 < (String.mk (List.replicate 8001 'a')).length ∧
      (truncate_content (String.mk (List.replicate 8001 'a')) 8000).data =
        (String.mk (List.replicate 8001 'a')).data.take 4000 ++
          ellipsisMarker.data ++
          (String.mk (List.replicate 8001 'a')).data.drop
            ((String.mk (List.replicate 8001 'a')).data.length - 4000) ∧
      (truncate_content (String.mk (List.replicate 8001 'a')) 8000).length =
        2 * (8000 / 2) + ellipsisMarker.length) := by
  have hbig : 8000 < (String.mk (List.replicate 8001 'a')).length := by
    show 8000 < (List.replicate 8001 'a').length
    rw [List.length_replicate]
    norm_num
  exact ⟨⟨by decide, (C5_truncate_spec "ab").1 (by decide)⟩,
    ⟨hbig, ((C5_truncate_spec (String.mk (List.replicate 8001 'a'))).2 hbig).1,
     ((C5_truncate_spec (String.mk (List.replicate 8001 'a'))).2 hbig).2⟩⟩

/-- C10: at the fixed maximum 8000, `truncate_content` is idempotent: even
though a truncated long input has length 8015 (exceeding the maximum), a
second truncation keeps the first 4000 characters, the marker, and the
last 4000 characters — which reproduces the once-truncated string. -/
theorem C10_truncate_idempotent (s : String) :
    truncate_content (truncate_content s 8000) 8000 = truncate_content s 8000 := by
  rcases le_or_lt s.length 8000 with h | h
  · rw [truncate_content_of_le s 8000 h, truncate_content_of_le s 8000 h]
  · have h2 : (8000 : Nat) / 2 = 4000 := by norm_num
    have heq := truncate_content_of_gt s 8000 h
    rw [h2, pyTailSlice_of_pos _ 4000 (by norm_num)] at heq
    have hlen : 8000 < s.data.length := h
    set a := s.data.take 4000 with ha
    set d := s.data.drop (s.data.length - 4000) with hd
    have hal : a.length = 4000 := by rw [ha, List.length_take]; omega
    have hdl : d.length = 4000 := by rw [hd, List.length_drop]; omega
    have hml : ellipsisMarker.data.length = 15 := by decide
    have hdata : (truncate_content s 8000).data = a ++ ellipsisMarker.data ++ d := by
      rw [heq]
    have hdd : (truncate_content s 8000).data.length = 8015 := by
      rw [hdata, List.length_append, List.length_append, hal, hdl, hml]
    have hgt : 8000 < (truncate_content s 8000).length := by
      show 8000 < (truncate_content s 8000).data.length
      omega
    have heq2 := truncate_content_of_gt (truncate_content s 8000) 8000 hgt
    rw [h2, pyTailSlice_of_pos _ 4000 (by norm_num)] at heq2
    have htake : (truncate_content s 8000).data.take 4000 = a := by
      rw [hdata, List.append_assoc,
        List.take_append_of_le_length (le_of_eq hal.symm),
        List.take_of_length_le (le_of_eq hal)]
    have hdrop : (truncate_content s 8000).data.drop
        ((truncate_content s 8000).data.length - 4000) = d := by
      rw [hdd, hdata]
      have h15 : (a ++ ellipsisMarker.data).length = 4015 := by
        rw [List.length_append, hal, hml]
      have h4015 : (8015 : Nat) - 4000 = 4015 := by norm_num
      rw [h4015, ← h15, List.drop_left]
    rw [heq2, htake, hdrop, ← hdata]

set_option maxRecDepth 10000 in
/-- C8: there is a response body — one that carries the five section
markers and enough length — such that after exhausting its retry budget on
HTTP 429 responses, `analyze_with_claude` returns its max-retries failure
string carrying that body verbatim, `verify_markdown` accepts that failure
string, and `analyze_single_directory` persists it as a written report. -/
theorem C8_exhausted_failure_persisted :
    (analyze_with_claude (fun _ => Except.error "boom")
      (fun _ => HttpAttempt.response 429 c8Body) "content" "dir" 0).result =
      c8Failure ∧
    verify_markdown c8Failure = true ∧
    analyze_single_directory "/p" "/" [⟨"a.py", true, Except.ok "x"⟩]
      (fun _ => Except.error "boom")
      (fun _ _ => HttpAttempt.response 429 c8Body) =
      DirOutcome.written c8Failure :=
  ⟨by decide, by decide, by decide⟩

/-- C9: `get_file_content` is total: it returns the file's text on a
successful read and the literal string `Error reading file: ` followed by
the exception text on any failure; and what it returns for a collected
file is embedded verbatim, as a contiguous substring, into the analysis
bundle assembled for the API. -/
theorem C9_get_file_content_spec (res : Except String String) :
    ((∃ t, res = Except.ok t ∧ get_file_content res = t) ∨
     (∃ e, res = Except.error e ∧
        get_file_content res = "Error reading file: " ++ e)) ∧
    (∀ (directory : String) (listing : List FsEntry) (ent : FsEntry),
      ent ∈ collect_files directory listing →
      (get_file_content ent.readResult).data <:+:
        (build_bundle directory listing).data) := by
  constructor
  · cases res with
    | ok t => exact Or.inl ⟨t, rfl, rfl⟩
    | error e => exact Or.inr ⟨e, rfl, rfl⟩
  · intro directory listing ent hmem
    have hpart : build_file_part ent.name (get_file_content ent.readResult) ∈
        (collect_files directory listing).map
          (fun e => build_file_part e.name (get_file_content e.readResult)) :=
      List.mem_map_of_mem _ hmem
    have hjoin := mem_join_lines_isInf _ _ hpart
    have hin : (get_file_content ent.readResult).data <:+:
        (build_file_part ent.name (get_file_content ent.readResult)).data := by
      refine ⟨("\n### File: " ++ ent.name ++ "\n```\n").data, "\n```".data, ?_⟩
      simp only [build_file_part, String.data_append, List.append_assoc]
    exact hin.trans hjoin

/-- Witness for C9: a single unreadable file; its error text is part of
the bundle. -/
theorem C9_get_file_content_spec_witness :
    ((⟨"a.py", true, Except.error "boom"⟩ : FsEntry) ∈
      collect_files "/p" [⟨"a.py", true, Except.error "boom"⟩]) ∧
    (get_file_content (Except.error "boom")).data <:+:
      (build_bundle "/p" [⟨"a.py", true, Except.error "boom"⟩]).data :=
  ⟨by decide,
   (C9_get_file_content_spec (Except.error "boom")).2 "/p"
     [⟨"a.py", true, Except.error "boom"⟩] ⟨"a.py", true, Except.error "boom"⟩
     (by decide)⟩
